import Mathlib

/-!
Verification development for the pixutils pixel-format library.

The definitions below are a shallow embedding of the Python sources:

* `pixutils/formats/fourcc_str.py` — the fourcc codec (`fourcc_to_str`,
  `str_to_fourcc`), with Python strings modelled as lists of character
  code points (`List ℕ`).
* `pixutils/formats/pixelformats.py` — the geometry model
  (`_div_round_up`, `_align_up`, `PixelFormat.stride`,
  `PixelFormat.planesize`, `PixelFormat.framesize`) and the format
  registry (`PixelFormats`).  Python exceptions are modelled with
  `Except PyErr`; Python's negative list indexing is modelled by `pyIdx`.
* `pixutils/conv/conv.py` — the size-validation prefix of `to_bgr888`
  (the loop over planes that checks `bytesperline` and the buffer size).
* `pixutils/conv/yuv.py` — the YCbCr→BGR colorspace transform
  (`ycbcr_to_bgr888`, per pixel) and the grey conversion
  (`y8_to_bgr888`, per pixel).  numpy float arithmetic is modelled with
  exact rationals (`ℚ`); `astype(np.uint8)` after `np.clip(·, 0, 255)`
  is the floor of the clipped value (`clip_u8`).
* `pixutils/conv/raw.py` — the 10-bit unpacker `_unpack_10bit` (per row,
  operating on groups of five bytes) and the coverage ("bayer") plane of
  the 3×3 windowed-average demosaic (`_demosaic_3x3_window` /
  `_compute_demosaic_planes`), from which the 3×3 coverage sums that are
  used as division divisors are built.

Machine integers do not overflow in the modelled code paths (all values
stay far below 2^16 / 2^32), so numbers are modelled as `ℕ`, `Int`, `ℚ`.
-/

namespace Pixutils

/-- Decidable equality for `Except` results (both counterexamples and
witnesses evaluate the embedded code on concrete inputs). -/
instance {ε α : Type} [DecidableEq ε] [DecidableEq α] :
    DecidableEq (Except ε α) := fun x y =>
  match x, y with
  | .ok a, .ok b =>
    if h : a = b then isTrue (by rw [h])
    else isFalse (by intro hc; injection hc; contradiction)
  | .error e, .error f =>
    if h : e = f then isTrue (by rw [h])
    else isFalse (by intro hc; injection hc; contradiction)
  | .ok _, .error _ => isFalse (by intro hc; cases hc)
  | .error _, .ok _ => isFalse (by intro hc; cases hc)

/-- Python errors raised by the modelled code paths. -/
inductive PyErr where
  | runtimeError
  | indexError
  | assertionError
  | zeroDivisionError
  | keyError (key : String)
  | valueError (msg : String)
deriving DecidableEq, Repr

/-! ## fourcc_str.py -/

/-- Embedding of `fourcc_to_str` (fourcc_str.py lines 6-14): the four bytes
of the 32-bit value, least significant first, as character code points. -/
def fourcc_to_str (fourcc : ℕ) : List ℕ :=
  [(fourcc >>> 0) &&& 0xFF,
   (fourcc >>> 8) &&& 0xFF,
   (fourcc >>> 16) &&& 0xFF,
   (fourcc >>> 24) &&& 0xFF]

/-- Embedding of `str_to_fourcc` (fourcc_str.py lines 17-21): raises
`ValueError` unless the string has exactly 4 characters, otherwise packs
the code points little-endian. -/
def str_to_fourcc (s : List ℕ) : Except PyErr ℕ :=
  if s.length ≠ 4 then .error (.valueError "Invalid fourcc string")
  else match s with
  | [c0, c1, c2, c3] => .ok ((c0 <<< 0) ||| (c1 <<< 8) ||| (c2 <<< 16) ||| (c3 <<< 24))
  | _ => .error (.valueError "Invalid fourcc string")

/-! ## pixelformats.py : geometry model -/

/-- Embedding of `_div_round_up` (pixelformats.py lines 25-26):
`int(ceil(a / b))` for natural inputs. -/
def _div_round_up (a b : ℕ) : ℕ := (a + b - 1) / b

/-- Embedding of `_align_up` (pixelformats.py lines 28-29). -/
def _align_up (a b : ℕ) : ℕ := _div_round_up a b * b

/-- `PixelColorEncoding` (pixelformats.py lines 12-16). -/
inductive PixelColorEncoding where
  | RGB
  | YUV
  | RAW
  | UNDEFINED
deriving DecidableEq, Repr

/-- `PixelFormatPlaneInfo` (pixelformats.py lines 19-23). -/
structure PixelFormatPlaneInfo where
  bytes_per_block : ℕ
  pixels_per_block : ℕ
  hsub : ℕ
  vsub : ℕ
deriving DecidableEq, Repr

/-- `PixelFormat` (pixelformats.py lines 31-54).  The fourcc fields keep
the raw constructor strings of the source; `planes` entries are written
with the short tuples of the source already expanded by `adjust_p`
((a,) ↦ (a,1,1,1) and (a,b) ↦ (a,b,1,1)). -/
structure PixelFormat where
  name : String
  drm_fourcc : Option String
  v4l2_fourcc : Option String
  color : PixelColorEncoding
  packed : Bool
  pixel_align : ℕ × ℕ
  planes : List PixelFormatPlaneInfo
deriving DecidableEq, Repr

/-- Python list indexing semantics: a non-negative index reads from the
front, an index in `[-len, 0)` reads from the end, anything else is an
`IndexError` (modelled as `none`). -/
def pyIdx {α : Type} (l : List α) (i : Int) : Option α :=
  if 0 ≤ i then l.get? i.toNat
  else if 0 ≤ (l.length : Int) + i then l.get? ((l.length : Int) + i).toNat
  else none

/-- Embedding of `PixelFormat.stride` (pixelformats.py lines 66-82).
The source raises a bare `RuntimeError` when `plane >= len(self.planes)`,
asserts the width alignment and divisibility conditions, divides the
byte-per-block stride by the horizontal subsample, and aligns up.
Division by a zero `align` would be a Python `ZeroDivisionError`;
all divisor fields of registered formats are ≥ 1 (see
`registry_fields_pos`). -/
def strideE (fmt : PixelFormat) (width : ℕ) (plane : Int) (align : ℕ) :
    Except PyErr ℕ :=
  if (fmt.planes.length : Int) ≤ plane then .error .runtimeError
  else if width % fmt.pixel_align.1 ≠ 0 then .error .assertionError
  else match pyIdx fmt.planes plane with
  | none => .error .indexError
  | some pi =>
    if width % pi.pixels_per_block ≠ 0 then .error .assertionError
    else if width / pi.pixels_per_block * pi.bytes_per_block % pi.hsub ≠ 0 then
      .error .assertionError
    else if align = 0 then .error .zeroDivisionError
    else .ok (_align_up
      (width / pi.pixels_per_block * pi.bytes_per_block / pi.hsub) align)

/-- Embedding of `PixelFormat.planesize` (pixelformats.py lines 84-91).
Note that unlike `stride` it performs no plane-range check before
indexing `self.planes[plane]`. -/
def planesizeE (fmt : PixelFormat) (stride height : ℕ) (plane : Int) :
    Except PyErr ℕ :=
  if height % fmt.pixel_align.2 ≠ 0 then .error .assertionError
  else match pyIdx fmt.planes plane with
  | none => .error .indexError
  | some pi =>
    if height % pi.vsub ≠ 0 then .error .assertionError
    else .ok (stride * (height / pi.vsub))

/-- Embedding of `PixelFormat.framesize` (pixelformats.py lines 94-101):
sum of per-plane sizes, each plane using its own stride. -/
def framesizeE (fmt : PixelFormat) (width height align : ℕ) : Except PyErr ℕ :=
  (List.range fmt.planes.length).foldlM
    (fun size i => do
      let s ← strideE fmt width (i : Int) align
      let ps ← planesizeE fmt s height (i : Int)
      pure (size + ps))
    0

/-! ## conv.py : size validation of `to_bgr888` -/

/-- The per-plane validation loop of `to_bgr888` (conv.py lines 43-53),
written as structural recursion over the list of plane indices.  For each
plane: with a non-zero `bytesperline` smaller than the natural stride it
raises `ValueError('bytesperline is too small')`; then it compares the
WHOLE buffer size against that single plane's size and raises
`ValueError('Input array is too small')` when smaller; finally it
accumulates `stride * height` into the view size. -/
def check_planes (fmt : PixelFormat) (width height bytesperline arrSize : ℕ) :
    List ℕ → ℕ → Except PyErr ℕ
  | [], size => .ok size
  | i :: rest, size => do
    let stride ←
      if bytesperline > 0 then do
        let s ← strideE fmt width (i : Int) 1
        if bytesperline < s then throw (.valueError "bytesperline is too small")
        pure bytesperline
      else strideE fmt width (i : Int) 1
    let ps ← planesizeE fmt stride height (i : Int)
    if arrSize < ps then throw (.valueError "Input array is too small")
    check_planes fmt width height bytesperline arrSize rest (size + stride * height)

/-- Embedding of the validation prefix of `to_bgr888` (conv.py lines
39-56): the multiplane assert followed by the per-plane loop.  An `.ok`
result means the conversion proceeds past the size validation (the
returned number is the computed view size). -/
def to_bgr888_check (fmt : PixelFormat) (width height bytesperline arrSize : ℕ) :
    Except PyErr ℕ :=
  if ¬ (fmt.planes.length = 1 ∨ bytesperline = 0) then .error .assertionError
  else check_planes fmt width height bytesperline arrSize
    (List.range fmt.planes.length) 0

/-! ## pixelformats.py : the format registry

One definition per class-level `PixelFormat` field of `PixelFormats`
(pixelformats.py lines 165-878), in source order, collected into
`PixelFormats.all` (the reflected `__FMT_LIST`). -/

def PixelFormats.R8 : PixelFormat :=
  ⟨"R8", some "R8  ", none, .RGB, false, (1, 1), [⟨1, 1, 1, 1⟩]⟩

def PixelFormats.RGB332 : PixelFormat :=
  ⟨"RGB332", some "RGB8", none, .RGB, false, (1, 1), [⟨1, 1, 1, 1⟩]⟩

def PixelFormats.RGB565 : PixelFormat :=
  ⟨"RGB565", some "RG16", some "RGBP", .RGB, false, (1, 1), [⟨2, 1, 1, 1⟩]⟩

def PixelFormats.BGR565 : PixelFormat :=
  ⟨"BGR565", some "BG16", none, .RGB, false, (1, 1), [⟨2, 1, 1, 1⟩]⟩

def PixelFormats.XRGB1555 : PixelFormat :=
  ⟨"XRGB1555", some "XR15", none, .RGB, false, (1, 1), [⟨2, 1, 1, 1⟩]⟩

def PixelFormats.RGBX4444 : PixelFormat :=
  ⟨"RGBX4444", some "RX12", none, .RGB, false, (1, 1), [⟨2, 1, 1, 1⟩]⟩

def PixelFormats.XRGB4444 : PixelFormat :=
  ⟨"XRGB4444", some "XR12", none, .RGB, false, (1, 1), [⟨2, 1, 1, 1⟩]⟩

def PixelFormats.ARGB1555 : PixelFormat :=
  ⟨"ARGB1555", some "AR15", none, .RGB, false, (1, 1), [⟨2, 1, 1, 1⟩]⟩

def PixelFormats.RGBA4444 : PixelFormat :=
  ⟨"RGBA4444", some "RA12", none, .RGB, false, (1, 1), [⟨2, 1, 1, 1⟩]⟩

def PixelFormats.ARGB4444 : PixelFormat :=
  ⟨"ARGB4444", some "AR12", none, .RGB, false, (1, 1), [⟨2, 1, 1, 1⟩]⟩

def PixelFormats.RGB888 : PixelFormat :=
  ⟨"RGB888", some "RG24", some "BGR3", .RGB, false, (1, 1), [⟨3, 1, 1, 1⟩]⟩

def PixelFormats.BGR888 : PixelFormat :=
  ⟨"BGR888", some "BG24", some "RGB3", .RGB, false, (1, 1), [⟨3, 1, 1, 1⟩]⟩

def PixelFormats.XRGB8888 : PixelFormat :=
  ⟨"XRGB8888", some "XR24", some "XR24", .RGB, false, (1, 1), [⟨4, 1, 1, 1⟩]⟩

def PixelFormats.XBGR8888 : PixelFormat :=
  ⟨"XBGR8888", some "XB24", some "XB24", .RGB, false, (1, 1), [⟨4, 1, 1, 1⟩]⟩

def PixelFormats.RGBX8888 : PixelFormat :=
  ⟨"RGBX8888", some "RX24", some "RX24", .RGB, false, (1, 1), [⟨4, 1, 1, 1⟩]⟩

def PixelFormats.BGRX8888 : PixelFormat :=
  ⟨"BGRX8888", some "BX24", none, .RGB, false, (1, 1), [⟨4, 1, 1, 1⟩]⟩

def PixelFormats.XBGR2101010 : PixelFormat :=
  ⟨"XBGR2101010", some "XB30", some "RX30", .RGB, false, (1, 1), [⟨4, 1, 1, 1⟩]⟩

def PixelFormats.XRGB2101010 : PixelFormat :=
  ⟨"XRGB2101010", some "XR30", none, .RGB, false, (1, 1), [⟨4, 1, 1, 1⟩]⟩

def PixelFormats.RGBX1010102 : PixelFormat :=
  ⟨"RGBX1010102", some "RX30", none, .RGB, false, (1, 1), [⟨4, 1, 1, 1⟩]⟩

def PixelFormats.BGRX1010102 : PixelFormat :=
  ⟨"BGRX1010102", some "BX30", none, .RGB, false, (1, 1), [⟨4, 1, 1, 1⟩]⟩

def PixelFormats.ARGB8888 : PixelFormat :=
  ⟨"ARGB8888", some "AR24", some "AR24", .RGB, false, (1, 1), [⟨4, 1, 1, 1⟩]⟩

def PixelFormats.ABGR8888 : PixelFormat :=
  ⟨"ABGR8888", some "AB24", some "AB24", .RGB, false, (1, 1), [⟨4, 1, 1, 1⟩]⟩

def PixelFormats.RGBA8888 : PixelFormat :=
  ⟨"RGBA8888", some "RA24", some "RA24", .RGB, false, (1, 1), [⟨4, 1, 1, 1⟩]⟩

def PixelFormats.BGRA8888 : PixelFormat :=
  ⟨"BGRA8888", some "BA24", none, .RGB, false, (1, 1), [⟨4, 1, 1, 1⟩]⟩

def PixelFormats.ABGR2101010 : PixelFormat :=
  ⟨"ABGR2101010", some "AB30", none, .RGB, false, (1, 1), [⟨4, 1, 1, 1⟩]⟩

def PixelFormats.ARGB2101010 : PixelFormat :=
  ⟨"ARGB2101010", some "AR30", none, .RGB, false, (1, 1), [⟨4, 1, 1, 1⟩]⟩

def PixelFormats.RGBA1010102 : PixelFormat :=
  ⟨"RGBA1010102", some "RA30", none, .RGB, false, (1, 1), [⟨4, 1, 1, 1⟩]⟩

def PixelFormats.BGRA1010102 : PixelFormat :=
  ⟨"BGRA1010102", some "BA30", none, .RGB, false, (1, 1), [⟨4, 1, 1, 1⟩]⟩

def PixelFormats.YUYV : PixelFormat :=
  ⟨"YUYV", some "YUYV", some "YUYV", .YUV, false, (2, 1), [⟨4, 2, 1, 1⟩]⟩

def PixelFormats.UYVY : PixelFormat :=
  ⟨"UYVY", some "UYVY", some "UYVY", .YUV, false, (2, 1), [⟨4, 2, 1, 1⟩]⟩

def PixelFormats.YVYU : PixelFormat :=
  ⟨"YVYU", some "YVYU", some "YVYU", .YUV, false, (2, 1), [⟨4, 2, 1, 1⟩]⟩

def PixelFormats.VYUY : PixelFormat :=
  ⟨"VYUY", some "VYUY", some "VYUY", .YUV, false, (2, 1), [⟨4, 2, 1, 1⟩]⟩

def PixelFormats.VUY888 : PixelFormat :=
  ⟨"VUY888", some "VU24", some "YUV3", .YUV, false, (1, 1), [⟨3, 1, 1, 1⟩]⟩

def PixelFormats.XVUY8888 : PixelFormat :=
  ⟨"XVUY8888", some "XVUY", some "YUVX", .YUV, false, (1, 1), [⟨4, 1, 1, 1⟩]⟩

def PixelFormats.Y210 : PixelFormat :=
  ⟨"Y210", some "Y210", none, .YUV, false, (1, 1), [⟨8, 2, 1, 1⟩]⟩

def PixelFormats.Y212 : PixelFormat :=
  ⟨"Y212", some "Y212", none, .YUV, false, (1, 1), [⟨8, 2, 1, 1⟩]⟩

def PixelFormats.Y216 : PixelFormat :=
  ⟨"Y216", some "Y216", none, .YUV, false, (1, 1), [⟨8, 2, 1, 1⟩]⟩

def PixelFormats.NV12 : PixelFormat :=
  ⟨"NV12", some "NV12", some "NM12", .YUV, false, (2, 2),
    [⟨1, 1, 1, 1⟩, ⟨2, 1, 2, 2⟩]⟩

def PixelFormats.NV21 : PixelFormat :=
  ⟨"NV21", some "NV21", some "NM21", .YUV, false, (2, 2),
    [⟨1, 1, 1, 1⟩, ⟨2, 1, 2, 2⟩]⟩

def PixelFormats.NV16 : PixelFormat :=
  ⟨"NV16", some "NV16", some "NM16", .YUV, false, (2, 1),
    [⟨1, 1, 1, 1⟩, ⟨2, 1, 2, 1⟩]⟩

def PixelFormats.NV61 : PixelFormat :=
  ⟨"NV61", some "NV61", some "NM61", .YUV, false, (2, 1),
    [⟨1, 1, 1, 1⟩, ⟨2, 1, 2, 1⟩]⟩

def PixelFormats.XV15 : PixelFormat :=
  ⟨"XV15", some "XV15", none, .YUV, false, (6, 2),
    [⟨4, 3, 1, 1⟩, ⟨8, 3, 2, 2⟩]⟩

def PixelFormats.XV20 : PixelFormat :=
  ⟨"XV20", some "XV20", none, .YUV, false, (6, 2),
    [⟨4, 3, 1, 1⟩, ⟨8, 3, 2, 1⟩]⟩

def PixelFormats.XVUY2101010 : PixelFormat :=
  ⟨"XVUY2101010", some "XY30", none, .YUV, false, (1, 1), [⟨4, 1, 1, 1⟩]⟩

def PixelFormats.YUV420 : PixelFormat :=
  ⟨"YUV420", some "YU12", none, .YUV, false, (1, 1),
    [⟨1, 1, 1, 1⟩, ⟨1, 1, 2, 2⟩, ⟨1, 1, 2, 2⟩]⟩

def PixelFormats.YVU420 : PixelFormat :=
  ⟨"YVU420", some "YV12", none, .YUV, false, (1, 1),
    [⟨1, 1, 1, 1⟩, ⟨1, 1, 2, 2⟩, ⟨1, 1, 2, 2⟩]⟩

def PixelFormats.YUV422 : PixelFormat :=
  ⟨"YUV422", some "YU16", none, .YUV, false, (1, 1),
    [⟨1, 1, 1, 1⟩, ⟨1, 1, 2, 1⟩, ⟨1, 1, 2, 1⟩]⟩

def PixelFormats.YVU422 : PixelFormat :=
  ⟨"YVU422", some "YV16", none, .YUV, false, (1, 1),
    [⟨1, 1, 1, 1⟩, ⟨1, 1, 2, 1⟩, ⟨1, 1, 2, 1⟩]⟩

def PixelFormats.YUV444 : PixelFormat :=
  ⟨"YUV444", some "YU24", none, .YUV, false, (1, 1),
    [⟨1, 1, 1, 1⟩, ⟨1, 1, 1, 1⟩, ⟨1, 1, 1, 1⟩]⟩

def PixelFormats.YVU444 : PixelFormat :=
  ⟨"YVU444", some "YV24", none, .YUV, false, (1, 1),
    [⟨1, 1, 1, 1⟩, ⟨1, 1, 1, 1⟩, ⟨1, 1, 1, 1⟩]⟩

def PixelFormats.X403 : PixelFormat :=
  ⟨"X403", some "X403", none, .YUV, false, (1, 1),
    [⟨4, 1, 1, 1⟩, ⟨4, 1, 1, 1⟩, ⟨4, 1, 1, 1⟩]⟩

def PixelFormats.Y8 : PixelFormat :=
  ⟨"Y8", some "GREY", some "GREY", .YUV, false, (1, 1), [⟨1, 1, 1, 1⟩]⟩

def PixelFormats.Y10 : PixelFormat :=
  ⟨"Y10", none, some "Y10 ", .YUV, false, (1, 1), [⟨2, 1, 1, 1⟩]⟩

def PixelFormats.Y10P : PixelFormat :=
  ⟨"Y10P", none, some "Y10P", .YUV, true, (4, 1), [⟨5, 4, 1, 1⟩]⟩

def PixelFormats.Y12 : PixelFormat :=
  ⟨"Y12", none, some "Y12 ", .YUV, false, (1, 1), [⟨2, 1, 1, 1⟩]⟩

def PixelFormats.Y12P : PixelFormat :=
  ⟨"Y12P", none, some "Y12P", .YUV, true, (2, 1), [⟨3, 2, 1, 1⟩]⟩

def PixelFormats.Y10_LE32 : PixelFormat :=
  ⟨"Y10_P32", some "YPA4", none, .YUV, false, (3, 1), [⟨4, 3, 1, 1⟩]⟩

def PixelFormats.SBGGR8 : PixelFormat :=
  ⟨"SBGGR8", none, some "BA81", .RAW, false, (2, 2), [⟨1, 1, 1, 1⟩]⟩

def PixelFormats.SGBRG8 : PixelFormat :=
  ⟨"SGBRG8", none, some "GBRG", .RAW, false, (2, 2), [⟨1, 1, 1, 1⟩]⟩

def PixelFormats.SGRBG8 : PixelFormat :=
  ⟨"SGRBG8", none, some "GRBG", .RAW, false, (2, 2), [⟨1, 1, 1, 1⟩]⟩

def PixelFormats.SRGGB8 : PixelFormat :=
  ⟨"SRGGB8", none, some "RGGB", .RAW, false, (2, 2), [⟨1, 1, 1, 1⟩]⟩

def PixelFormats.SBGGR10 : PixelFormat :=
  ⟨"SBGGR10", none, some "BG10", .RAW, false, (2, 2), [⟨4, 2, 1, 1⟩]⟩

def PixelFormats.SGBRG10 : PixelFormat :=
  ⟨"SGBRG10", none, some "GB10", .RAW, false, (2, 2), [⟨4, 2, 1, 1⟩]⟩

def PixelFormats.SGRBG10 : PixelFormat :=
  ⟨"SGRBG10", none, some "BA10", .RAW, false, (2, 2), [⟨4, 2, 1, 1⟩]⟩

def PixelFormats.SRGGB10 : PixelFormat :=
  ⟨"SRGGB10", none, some "RG10", .RAW, false, (2, 2), [⟨4, 2, 1, 1⟩]⟩

def PixelFormats.SBGGR10P : PixelFormat :=
  ⟨"SBGGR10P", none, some "pBAA", .RAW, true, (4, 2), [⟨5, 4, 1, 1⟩]⟩

def PixelFormats.SGBRG10P : PixelFormat :=
  ⟨"SGBRG10P", none, some "pGAA", .RAW, true, (4, 2), [⟨5, 4, 1, 1⟩]⟩

def PixelFormats.SGRBG10P : PixelFormat :=
  ⟨"SGRBG10P", none, some "pgAA", .RAW, true, (4, 2), [⟨5, 4, 1, 1⟩]⟩

def PixelFormats.SRGGB10P : PixelFormat :=
  ⟨"SRGGB10P", none, some "pRAA", .RAW, true, (4, 2), [⟨5, 4, 1, 1⟩]⟩

def PixelFormats.SBGGR12 : PixelFormat :=
  ⟨"SBGGR12", none, some "BG12", .RAW, false, (2, 2), [⟨4, 2, 1, 1⟩]⟩

def PixelFormats.SGBRG12 : PixelFormat :=
  ⟨"SGBRG12", none, some "GB12", .RAW, false, (2, 2), [⟨4, 2, 1, 1⟩]⟩

def PixelFormats.SGRBG12 : PixelFormat :=
  ⟨"SGRBG12", none, some "BA12", .RAW, false, (2, 2), [⟨4, 2, 1, 1⟩]⟩

def PixelFormats.SRGGB12 : PixelFormat :=
  ⟨"SRGGB12", none, some "RG12", .RAW, false, (2, 2), [⟨4, 2, 1, 1⟩]⟩

def PixelFormats.SBGGR12P : PixelFormat :=
  ⟨"SBGGR12P", none, some "pBCC", .RAW, true, (2, 2), [⟨3, 2, 1, 1⟩]⟩

def PixelFormats.SGBRG12P : PixelFormat :=
  ⟨"SGBRG12P", none, some "pGCC", .RAW, true, (2, 2), [⟨3, 2, 1, 1⟩]⟩

def PixelFormats.SGRBG12P : PixelFormat :=
  ⟨"SGRBG12P", none, some "pgCC", .RAW, true, (2, 2), [⟨3, 2, 1, 1⟩]⟩

def PixelFormats.SRGGB12P : PixelFormat :=
  ⟨"SRGGB12P", none, some "pRCC", .RAW, true, (2, 2), [⟨3, 2, 1, 1⟩]⟩

def PixelFormats.SBGGR16 : PixelFormat :=
  ⟨"SBGGR16", none, some "BYR2", .RAW, false, (2, 2), [⟨4, 2, 1, 1⟩]⟩

def PixelFormats.SGBRG16 : PixelFormat :=
  ⟨"SGBRG16", none, some "GB16", .RAW, false, (2, 2), [⟨4, 2, 1, 1⟩]⟩

def PixelFormats.SGRBG16 : PixelFormat :=
  ⟨"SGRBG16", none, some "GR16", .RAW, false, (2, 2), [⟨4, 2, 1, 1⟩]⟩

def PixelFormats.SRGGB16 : PixelFormat :=
  ⟨"SRGGB16", none, some "RG16", .RAW, false, (2, 2), [⟨4, 2, 1, 1⟩]⟩

def PixelFormats.MJPEG : PixelFormat :=
  ⟨"MJPEG", some "MJPG", some "MJPG", .YUV, false, (1, 1), [⟨1, 1, 1, 1⟩]⟩

/-- The reflected registry list `PixelFormats.__FMT_LIST`
(pixelformats.py lines 136-142), in class-body order. -/
def PixelFormats.all : List PixelFormat :=
  [PixelFormats.R8, PixelFormats.RGB332, PixelFormats.RGB565,
   PixelFormats.BGR565, PixelFormats.XRGB1555, PixelFormats.RGBX4444,
   PixelFormats.XRGB4444, PixelFormats.ARGB1555, PixelFormats.RGBA4444,
   PixelFormats.ARGB4444, PixelFormats.RGB888, PixelFormats.BGR888,
   PixelFormats.XRGB8888, PixelFormats.XBGR8888, PixelFormats.RGBX8888,
   PixelFormats.BGRX8888, PixelFormats.XBGR2101010, PixelFormats.XRGB2101010,
   PixelFormats.RGBX1010102, PixelFormats.BGRX1010102, PixelFormats.ARGB8888,
   PixelFormats.ABGR8888, PixelFormats.RGBA8888, PixelFormats.BGRA8888,
   PixelFormats.ABGR2101010, PixelFormats.ARGB2101010, PixelFormats.RGBA1010102,
   PixelFormats.BGRA1010102, PixelFormats.YUYV, PixelFormats.UYVY,
   PixelFormats.YVYU, PixelFormats.VYUY, PixelFormats.VUY888,
   PixelFormats.XVUY8888, PixelFormats.Y210, PixelFormats.Y212,
   PixelFormats.Y216, PixelFormats.NV12, PixelFormats.NV21,
   PixelFormats.NV16, PixelFormats.NV61, PixelFormats.XV15,
   PixelFormats.XV20, PixelFormats.XVUY2101010, PixelFormats.YUV420,
   PixelFormats.YVU420, PixelFormats.YUV422, PixelFormats.YVU422,
   PixelFormats.YUV444, PixelFormats.YVU444, PixelFormats.X403,
   PixelFormats.Y8, PixelFormats.Y10, PixelFormats.Y10P,
   PixelFormats.Y12, PixelFormats.Y12P, PixelFormats.Y10_LE32,
   PixelFormats.SBGGR8, PixelFormats.SGBRG8, PixelFormats.SGRBG8,
   PixelFormats.SRGGB8, PixelFormats.SBGGR10, PixelFormats.SGBRG10,
   PixelFormats.SGRBG10, PixelFormats.SRGGB10, PixelFormats.SBGGR10P,
   PixelFormats.SGBRG10P, PixelFormats.SGRBG10P, PixelFormats.SRGGB10P,
   PixelFormats.SBGGR12, PixelFormats.SGBRG12, PixelFormats.SGRBG12,
   PixelFormats.SRGGB12, PixelFormats.SBGGR12P, PixelFormats.SGBRG12P,
   PixelFormats.SGRBG12P, PixelFormats.SRGGB12P, PixelFormats.SBGGR16,
   PixelFormats.SGBRG16, PixelFormats.SGRBG16, PixelFormats.SRGGB16,
   PixelFormats.MJPEG]

/-- The stride formula exactly as the spec words it (for comparison with
`strideE`): `ceil(width / pixels_per_group) * bytes_per_group`, then
rounded up to `align`. -/
def stride_claimed (width pixels_per_group bytes_per_group align : ℕ) : ℕ :=
  _align_up (_div_round_up width pixels_per_group * bytes_per_group) align

/-! ## yuv.py : colorspace conversion -/

/-- A conversion options dictionary: string keys to string values. -/
abbrev OptionsDict := List (String × String)

/-- Python truthiness of the optional options dict (`if options:` is
false both for `None` and for an empty dict). -/
def dict_truthy : Option OptionsDict → Bool
  | none => false
  | some o => !o.isEmpty

/-- Python `dict.get(key, default)`. -/
def dict_get (o : OptionsDict) (key default : String) : String :=
  (o.lookup key).getD default

/-- The `color_range` selected by `_get_conversion_matrix`
(yuv.py lines 47-52): default `'limited'`, overridden by a truthy
options dict. -/
def resolved_range (options : Option OptionsDict) : String :=
  if dict_truthy options then dict_get (options.getD []) "range" "limited"
  else "limited"

/-- The `color_encoding` selected by `_get_conversion_matrix`
(yuv.py lines 48-52): default `'bt601'`. -/
def resolved_encoding (options : Option OptionsDict) : String :=
  if dict_truthy options then dict_get (options.getD []) "encoding" "bt601"
  else "bt601"

/-- A 3×3 matrix, row-major (`matrix[r][c] = mRC`), with the float
entries of the source modelled as exact rationals. -/
structure Mat3 where
  m00 : ℚ
  m01 : ℚ
  m02 : ℚ
  m10 : ℚ
  m11 : ℚ
  m12 : ℚ
  m20 : ℚ
  m21 : ℚ
  m22 : ℚ

/-- One entry of `YCBCR_VALUES`: the offsets tuple and the matrix. -/
structure CscEntry where
  offset_y : ℚ
  offset_u : ℚ
  offset_v : ℚ
  matrix : Mat3

/-- The `YCBCR_VALUES` table (yuv.py lines 23-42): only `bt601` is
present, with `limited` and `full` range entries. -/
def ycbcr_values : List (String × List (String × CscEntry)) :=
  [("bt601",
    [("limited",
      ⟨-16, -128, -128,
       ⟨1.1643854428931106, 1.1643854428931106, 1.1643854428931106,
        0.0, -0.3917753871976806, 2.01722743572137,
        1.596032654306859, -0.8129854276340887, 0.0⟩⟩),
     ("full",
      ⟨0, -128, -128,
       ⟨1.0, 1.0, 1.0,
        0.0, -0.3441367208361944, 1.7720149538414587,
        1.4019989318684671, -0.714152742809186, 0.0⟩⟩)])]

/-- Embedding of `_get_conversion_matrix` (yuv.py lines 45-55): two
nested dict lookups in `YCBCR_VALUES`; a missing key is a Python
`KeyError`. -/
def _get_conversion_matrix (options : Option OptionsDict) :
    Except PyErr CscEntry :=
  match ycbcr_values.lookup (resolved_encoding options) with
  | none => .error (.keyError (resolved_encoding options))
  | some by_range =>
    match by_range.lookup (resolved_range options) with
    | none => .error (.keyError (resolved_range options))
    | some entry => .ok entry

/-- `np.clip(x, 0, 255)` followed by `astype(np.uint8)`: the clipped
value lies in [0, 255], so the uint8 cast is its floor. -/
def clip_u8 (q : ℚ) : ℕ := (⌊min 255 (max 0 q)⌋).toNat

/-- Embedding of `ycbcr_to_bgr888` (yuv.py lines 58-68) at one pixel:
`rgb = clip((ycbcr + offset) · matrix, 0, 255)` cast to uint8, output
channel `c` being column `c` of the matrix.  The three returned values
are bytes 0, 1, 2 of the output pixel. -/
def ycbcr_to_bgr888_px (y u v : ℕ) (options : Option OptionsDict) :
    Except PyErr (ℕ × ℕ × ℕ) := do
  let e ← _get_conversion_matrix options
  let yq : ℚ := (y : ℚ) + e.offset_y
  let uq : ℚ := (u : ℚ) + e.offset_u
  let vq : ℚ := (v : ℚ) + e.offset_v
  let m := e.matrix
  pure (clip_u8 (yq * m.m00 + uq * m.m10 + vq * m.m20),
        clip_u8 (yq * m.m01 + uq * m.m11 + vq * m.m21),
        clip_u8 (yq * m.m02 + uq * m.m12 + vq * m.m22))

/-- Embedding of `y8_to_bgr888` (yuv.py lines 143-158) at one pixel:
the selected range defaults to `'full'`; the `'limited'` branch rescales
`(y - 16) * 255 / 219` clipped to [0, 255] (numpy float32 arithmetic,
modelled with exact rationals); the value is replicated into all three
output channels. -/
def y8_to_bgr888_px (y : ℕ) (options : Option OptionsDict) : ℕ × ℕ × ℕ :=
  let color_range :=
    if dict_truthy options then dict_get (options.getD []) "range" "full"
    else "full"
  if color_range = "limited" then
    let s := clip_u8 (((y : ℚ) - 16) * 255 / 219)
    (s, s, s)
  else (y, y, y)

/-! ## raw.py : 10-bit unpacking and the demosaic coverage plane -/

/-- The 5-byte group layout described by the spec for 10-bit packed raw:
byte `i` is sample `i` right-shifted by 2 (`i < 4`); the 5th byte holds
sample `i`'s 2 low-order bits at bit offset `(3-i)*2` from the top. -/
def pack_10bit_group (s0 s1 s2 s3 : ℕ) : List ℕ :=
  [s0 >>> 2, s1 >>> 2, s2 >>> 2, s3 >>> 2,
   ((s0 &&& 3) <<< 6) ||| ((s1 &&& 3) <<< 4) ||| ((s2 &&& 3) <<< 2) ||| (s3 &&& 3)]

/-- Embedding of `_unpack_10bit` (raw.py lines 110-115) on one row:
every sample byte is shifted left by 2 and ored with 2 bits extracted
from the (also shifted) 5th byte of its group at offset `(4 - i) * 2`;
the packing bytes (columns 4 mod 5) are then deleted.  A trailing
partial group has no 5th byte, so its columns receive no low bits. -/
def _unpack_10bit : List ℕ → List ℕ
  | b0 :: b1 :: b2 :: b3 :: b4 :: rest =>
    ((b0 <<< 2) ||| (((b4 <<< 2) >>> 8) &&& 3)) ::
    ((b1 <<< 2) ||| (((b4 <<< 2) >>> 6) &&& 3)) ::
    ((b2 <<< 2) ||| (((b4 <<< 2) >>> 4) &&& 3)) ::
    ((b3 <<< 2) ||| (((b4 <<< 2) >>> 2) &&& 3)) ::
    _unpack_10bit rest
  | rest => rest.map (fun b => b <<< 2)

/-- `BayerPattern` (raw.py lines 27-51): the four canonical sample
coordinates, each an (x parity, y parity) pair. -/
structure BayerPattern where
  r0 : ℕ × ℕ
  g0 : ℕ × ℕ
  g1 : ℕ × ℕ
  b0 : ℕ × ℕ
deriving DecidableEq, Repr

/-- The 0/1 coverage ("bayer") plane built by `_demosaic_3x3_window`
(raw.py lines 182-186) at row `y`, column `x`, channel `c`.  The scatter
positions are fixed and independent of the Bayer pattern: red at
(odd row, even column), green at (even, even) and (odd, odd), blue at
(even row, odd column). -/
def bayer_coverage (y x c : ℕ) : ℕ :=
  if c = 0 then (if y % 2 = 1 ∧ x % 2 = 0 then 1 else 0)
  else if c = 1 then
    (if (y % 2 = 0 ∧ x % 2 = 0) ∨ (y % 2 = 1 ∧ x % 2 = 1) then 1 else 0)
  else if c = 2 then (if y % 2 = 0 ∧ x % 2 = 1 then 1 else 0)
  else 0

/-- The coverage plane after `np.pad` by one zero pixel on each side
(raw.py lines 194-207), for an `h × w` mosaic; indices range over the
padded grid `(h+2) × (w+2)`. -/
def bayer_padded (h w y x c : ℕ) : ℕ :=
  if 1 ≤ y ∧ y ≤ h ∧ 1 ≤ x ∧ x ≤ w then bayer_coverage (y - 1) (x - 1) c
  else 0

/-- The 3×3 coverage window sum `bsum` of `_compute_demosaic_planes`
(raw.py lines 234-236) at output pixel `(i, j)` and channel `c`: the
nine padded-plane cells `(i+di, j+dj)`, `di, dj ∈ {0,1,2}`, written as
the direct 9-term sum of the source. -/
def coverage_sum_3x3 (h w i j c : ℕ) : ℕ :=
  bayer_padded h w i j c + bayer_padded h w i (j + 1) c +
    bayer_padded h w i (j + 2) c +
  bayer_padded h w (i + 1) j c + bayer_padded h w (i + 1) (j + 1) c +
    bayer_padded h w (i + 1) (j + 2) c +
  bayer_padded h w (i + 2) j c + bayer_padded h w (i + 2) (j + 1) c +
    bayer_padded h w (i + 2) (j + 2) c

/-! ### Bitwise support lemmas -/

/-- Masking with `2 ^ n - 1` is reduction modulo `2 ^ n`. -/
theorem and_two_pow_sub_one (x n : ℕ) : x &&& (2 ^ n - 1) = x % 2 ^ n := by
  apply Nat.eq_of_testBit_eq
  intro i
  rw [Nat.testBit_and, Nat.testBit_two_pow_sub_one, Nat.testBit_mod_two_pow]
  by_cases h : i < n <;> simp [h]

/-- Oring a value below `2 ^ k` with a left-shift by `k` is addition. -/
theorem lor_shiftLeft_eq {a : ℕ} (b k : ℕ) (h : a < 2 ^ k) :
    a ||| (b <<< k) = a + b * 2 ^ k := by
  rw [Nat.shiftLeft_eq]
  apply Nat.eq_of_testBit_eq
  intro j
  rw [Nat.testBit_lor]
  have hsum : b * 2 ^ k + a = 2 ^ k * b + a := by ring_nf
  rw [Nat.add_comm a (b * 2 ^ k), hsum, Nat.testBit_mul_pow_two_add b h j]
  by_cases hj : j < k
  · have hb : (b * 2 ^ k).testBit j = false := by
      rw [Nat.mul_comm, Nat.testBit_mul_pow_two]
      simp [Nat.not_le_of_lt hj]
    simp [hj, hb]
  · have ha : a.testBit j = false := by
      apply Nat.testBit_lt_two_pow
      exact lt_of_lt_of_le h (Nat.pow_le_pow_right (by norm_num) (Nat.le_of_not_lt hj))
    have hb : (b * 2 ^ k).testBit j = b.testBit (j - k) := by
      rw [Nat.mul_comm, Nat.testBit_mul_pow_two]
      simp [Nat.le_of_not_lt hj]
    simp [hj, ha, hb]

theorem and_255_eq_mod (x : ℕ) : x &&& 255 = x % 256 := by
  have h : (255 : ℕ) = 2 ^ 8 - 1 := by norm_num
  rw [h, and_two_pow_sub_one]
  norm_num

/-- Evaluation of `str_to_fourcc` on a 4-element list. -/
theorem str_to_fourcc_cons (c0 c1 c2 c3 : ℕ) :
    str_to_fourcc [c0, c1, c2, c3]
      = .ok ((c0 <<< 0) ||| (c1 <<< 8) ||| (c2 <<< 16) ||| (c3 <<< 24)) := by
  rw [str_to_fourcc, if_neg (by simp)]

/-- Packing four bytes little-endian, in arithmetic form. -/
theorem pack_bytes_eq (c0 c1 c2 c3 : ℕ) (h0 : c0 < 256) (h1 : c1 < 256)
    (h2 : c2 < 256) (h3 : c3 < 256) :
    (c0 <<< 0) ||| (c1 <<< 8) ||| (c2 <<< 16) ||| (c3 <<< 24)
      = c0 + c1 * 256 + c2 * 65536 + c3 * 16777216 := by
  have e0 : c0 <<< 0 = c0 := by rw [Nat.shiftLeft_eq]; ring
  have e1 : c0 ||| (c1 <<< 8) = c0 + c1 * 256 := by
    have := lor_shiftLeft_eq (a := c0) c1 8 (by norm_num at h0 ⊢; omega)
    simpa using this
  have e2 : (c0 + c1 * 256) ||| (c2 <<< 16) = c0 + c1 * 256 + c2 * 65536 := by
    have := lor_shiftLeft_eq (a := c0 + c1 * 256) c2 16 (by norm_num; omega)
    simpa using this
  have e3 : (c0 + c1 * 256 + c2 * 65536) ||| (c3 <<< 24)
      = c0 + c1 * 256 + c2 * 65536 + c3 * 16777216 := by
    have := lor_shiftLeft_eq (a := c0 + c1 * 256 + c2 * 65536) c3 24 (by norm_num; omega)
    simpa using this
  rw [e0, e1, e2, e3]

/-- Round trip of the codec on arbitrary byte-valued 4-character strings:
shared support for the fourcc claims. -/
theorem fourcc_roundtrip_bytes (s : List ℕ) (hlen : s.length = 4)
    (hbyte : ∀ c ∈ s, c < 256) :
    Except.map fourcc_to_str (str_to_fourcc s) = .ok s := by
  match s, hlen with
  | [c0, c1, c2, c3], _ =>
    have h0 : c0 < 256 := hbyte c0 (by simp)
    have h1 : c1 < 256 := hbyte c1 (by simp)
    have h2 : c2 < 256 := hbyte c2 (by simp)
    have h3 : c3 < 256 := hbyte c3 (by simp)
    rw [str_to_fourcc]
    rw [if_neg (by simp)]
    show Except.map fourcc_to_str
        (.ok ((c0 <<< 0) ||| (c1 <<< 8) ||| (c2 <<< 16) ||| (c3 <<< 24)))
      = .ok [c0, c1, c2, c3]
    rw [pack_bytes_eq c0 c1 c2 c3 h0 h1 h2 h3]
    show Except.ok (fourcc_to_str (c0 + c1 * 256 + c2 * 65536 + c3 * 16777216))
      = .ok [c0, c1, c2, c3]
    rw [fourcc_to_str]
    simp only [Nat.shiftRight_eq_div_pow, and_255_eq_mod, Except.ok.injEq,
      List.cons.injEq, and_true]
    norm_num
    refine ⟨by omega, by omega, by omega, by omega⟩

/-- C8: for every 4-character string of ASCII code points (≤ 127),
`fourcc_to_str (str_to_fourcc s) = s`: the codec round-trips on 4-byte
ASCII strings, with `str_to_fourcc` packing as `b0 | b1<<8 | b2<<16 | b3<<24`. -/
theorem fourcc_ascii_roundtrip (s : List ℕ) (hlen : s.length = 4)
    (hascii : ∀ c ∈ s, c ≤ 127) :
    Except.map fourcc_to_str (str_to_fourcc s) = .ok s :=
  fourcc_roundtrip_bytes s hlen (fun c hc => lt_of_le_of_lt (hascii c hc) (by norm_num))

/-- Witness for C8 at the concrete string "RGB8" = [82, 71, 66, 56]. -/
theorem fourcc_ascii_roundtrip_witness :
    Except.map fourcc_to_str (str_to_fourcc [82, 71, 66, 56]) = .ok [82, 71, 66, 56] :=
  fourcc_ascii_roundtrip [82, 71, 66, 56] (by decide) (by decide)

/-- C10: for every 32-bit value `v`, `fourcc_to_str v` has exactly 4
characters, each with code point below 256, and
`str_to_fourcc (fourcc_to_str v) = v`; conversely the codec also
round-trips on every 4-character string whose code points are below 256
(not only ASCII), so it is a bijection between 32-bit values and
4-character byte-valued strings. -/
theorem fourcc_codec_bijection :
    (∀ v : ℕ, v < 2 ^ 32 →
      (fourcc_to_str v).length = 4 ∧ (∀ c ∈ fourcc_to_str v, c < 256) ∧
        str_to_fourcc (fourcc_to_str v) = .ok v) ∧
    (∀ s : List ℕ, s.length = 4 → (∀ c ∈ s, c < 256) →
      Except.map fourcc_to_str (str_to_fourcc s) = .ok s) := by
  constructor
  · intro v hv
    have hrepr : fourcc_to_str v
        = [v % 256, v / 256 % 256, v / 65536 % 256, v / 16777216 % 256] := by
      simp only [fourcc_to_str, Nat.shiftRight_eq_div_pow, and_255_eq_mod]
      norm_num
    have hm0 : v % 256 < 256 := Nat.mod_lt _ (by norm_num)
    have hm1 : v / 256 % 256 < 256 := Nat.mod_lt _ (by norm_num)
    have hm2 : v / 65536 % 256 < 256 := Nat.mod_lt _ (by norm_num)
    have hm3 : v / 16777216 % 256 < 256 := Nat.mod_lt _ (by norm_num)
    refine ⟨by rw [hrepr]; rfl, ?_, ?_⟩
    · intro c hc
      rw [hrepr] at hc
      simp only [List.mem_cons, List.not_mem_nil, or_false] at hc
      rcases hc with rfl | rfl | rfl | rfl <;> assumption
    · rw [hrepr, str_to_fourcc_cons]
      rw [pack_bytes_eq _ _ _ _ hm0 hm1 hm2 hm3]
      have hv32 : v < 4294967296 := by norm_num at hv; omega
      congr 1
      omega
  · exact fourcc_roundtrip_bytes

/-- Witness for C10 at v = 0x34333231 and at the non-ASCII string
[200, 0, 255, 128]. -/
theorem fourcc_codec_bijection_witness :
    str_to_fourcc (fourcc_to_str 875770417) = .ok 875770417 ∧
      Except.map fourcc_to_str (str_to_fourcc [200, 0, 255, 128])
        = .ok [200, 0, 255, 128] :=
  ⟨(fourcc_codec_bijection.1 875770417 (by norm_num)).2.2,
   fourcc_codec_bijection.2 [200, 0, 255, 128] (by decide) (by decide)⟩

/-! ### Registry facts and alignment arithmetic -/

/-- Every registered format has positive alignment and plane divisor
fields (so the Python divisions and modulo operations modelled over ℕ
never hit a zero divisor). -/
theorem registry_fields_pos :
    ∀ fmt ∈ PixelFormats.all, 1 ≤ fmt.pixel_align.1 ∧ 1 ≤ fmt.pixel_align.2 ∧
      ∀ pi ∈ fmt.planes, 1 ≤ pi.bytes_per_block ∧ 1 ≤ pi.pixels_per_block ∧
        1 ≤ pi.hsub ∧ 1 ≤ pi.vsub := by decide

/-- Ceiling division agrees with exact division on multiples. -/
theorem div_round_up_eq_div {a b : ℕ} (hb : 1 ≤ b) (h : a % b = 0) :
    _div_round_up a b = a / b := by
  obtain ⟨k, rfl⟩ := Nat.dvd_of_mod_eq_zero h
  unfold _div_round_up
  have h1 : b * k + b - 1 = b * k + (b - 1) := by omega
  rw [h1, Nat.mul_add_div (by omega), Nat.div_eq_of_lt (by omega),
    Nat.mul_div_cancel_left _ (by omega : 0 < b)]
  omega

/-- `_align_up a b` is a multiple of `b`. -/
theorem align_up_mod (a b : ℕ) : _align_up a b % b = 0 :=
  Nat.mul_mod_left _ b

/-- `_align_up` never shrinks its argument (for positive alignment). -/
theorem le_align_up (a : ℕ) {b : ℕ} (hb : 1 ≤ b) : a ≤ _align_up a b := by
  rcases Nat.eq_zero_or_pos a with rfl | ha
  · exact Nat.zero_le _
  unfold _align_up _div_round_up
  have h1 : a + b - 1 = (a - 1) + b := by omega
  rw [h1, Nat.add_div_right _ hb]
  have h3 : a - 1 < ((a - 1) / b + 1) * b :=
    (Nat.div_lt_iff_lt_mul hb).mp (Nat.lt_succ_self _)
  omega

/-- `_align_up a b` is the least multiple of `b` that is ≥ `a`. -/
theorem align_up_le {a b m : ℕ} (hb : 1 ≤ b) (hdvd : b ∣ m) (ham : a ≤ m) :
    _align_up a b ≤ m := by
  obtain ⟨k, rfl⟩ := hdvd
  unfold _align_up _div_round_up
  have hlt : a + b - 1 < (k + 1) * b := by
    have h4 : a + b - 1 < b * k + b := by omega
    calc a + b - 1 < b * k + b := h4
    _ = (k + 1) * b := by ring
  have hq : (a + b - 1) / b < k + 1 := (Nat.div_lt_iff_lt_mul hb).mpr hlt
  calc (a + b - 1) / b * b ≤ k * b := Nat.mul_le_mul_right b (by omega)
  _ = b * k := Nat.mul_comm _ _

/-- `_align_up` is monotone in the alignment along divisibility. -/
theorem align_up_mono_dvd {a b1 b2 : ℕ} (h1 : 1 ≤ b1) (h2 : 1 ≤ b2)
    (hdvd : b1 ∣ b2) : _align_up a b1 ≤ _align_up a b2 := by
  have hm : b2 ∣ _align_up a b2 := Nat.dvd_of_mod_eq_zero (align_up_mod a b2)
  exact align_up_le h1 (hdvd.trans hm) (le_align_up a h2)

/-- Successful `strideE` results have the aligned shape: the natural
per-plane stride (including the horizontal-subsample division), rounded
up to `align`, with a non-zero `align`. -/
theorem strideE_ok_shape {fmt : PixelFormat} {w : ℕ} {p : Int} {a s : ℕ}
    (hok : strideE fmt w p a = .ok s) :
    a ≠ 0 ∧ ∃ pi, pyIdx fmt.planes p = some pi ∧
      s = _align_up (w / pi.pixels_per_block * pi.bytes_per_block / pi.hsub) a := by
  unfold strideE at hok
  split at hok
  · exact absurd hok (by simp)
  split at hok
  · exact absurd hok (by simp)
  split at hok
  · exact absurd hok (by simp)
  rename_i pi heq
  split at hok
  · exact absurd hok (by simp)
  split at hok
  · exact absurd hok (by simp)
  split at hok
  · exact absurd hok (by simp)
  rename_i hA
  exact ⟨hA, pi, heq, ((Except.ok.injEq _ _).mp hok).symm⟩

/-- Evaluation of `strideE` on an in-range plane when the width
preconditions hold. -/
theorem strideE_eval {fmt : PixelFormat} (w align : ℕ) (p : ℕ)
    (hp : p < fmt.planes.length) (pi : PixelFormatPlaneInfo)
    (hpi : fmt.planes.get ⟨p, hp⟩ = pi) (ha : 1 ≤ align)
    (h1 : w % fmt.pixel_align.1 = 0) (h2 : w % pi.pixels_per_block = 0)
    (h3 : w / pi.pixels_per_block * pi.bytes_per_block % pi.hsub = 0) :
    strideE fmt w (p : Int) align
      = .ok (_align_up (w / pi.pixels_per_block * pi.bytes_per_block / pi.hsub)
              align) := by
  have hget : pyIdx fmt.planes (p : Int) = some pi := by
    unfold pyIdx
    rw [if_pos (by positivity)]
    rw [Int.toNat_ofNat, List.get?_eq_get hp, hpi]
  have hlen : ¬ ((fmt.planes.length : Int) ≤ (p : Int)) := by
    exact_mod_cast Nat.not_le_of_lt hp
  unfold strideE
  rw [if_neg hlen, if_neg (by simp [h1]), hget]
  dsimp only
  rw [if_neg (by simp [h2]), if_neg (by simp [h3]), if_neg (by omega)]

/-- C4 (counterexample): on the registered NV12 format, plane 1, the
spec's stride formula `ceil(width / pixels_per_group) * bytes_per_group`
aligned up disagrees with the code: for width 4 the code returns 4
(it additionally divides by the plane's horizontal subsample 2) while
the claimed formula gives 8. -/
theorem stride_spec_formula_fails :
    strideE PixelFormats.NV12 4 1 1 = .ok 4 ∧
      stride_claimed 4 1 2 1 = 8 ∧ (4 : ℕ) ≠ 8 := by decide

/-- C4 (amended): for every registered format, in-range plane `p`, width
meeting the width-alignment, pixels-per-group divisibility, and
horizontal-subsample divisibility preconditions, and `align ≥ 1`,
`stride` returns `ceil(width / pixels_per_group) * bytes_per_group`
divided by the plane's horizontal subsample and rounded up to the next
multiple of `align`. -/
theorem stride_amended (fmt : PixelFormat) (hmem : fmt ∈ PixelFormats.all)
    (w align : ℕ) (p : ℕ) (hp : p < fmt.planes.length)
    (pi : PixelFormatPlaneInfo) (hpi : fmt.planes.get ⟨p, hp⟩ = pi)
    (ha : 1 ≤ align)
    (h1 : w % fmt.pixel_align.1 = 0) (h2 : w % pi.pixels_per_block = 0)
    (h3 : w / pi.pixels_per_block * pi.bytes_per_block % pi.hsub = 0) :
    strideE fmt w (p : Int) align
      = .ok (_align_up
          (_div_round_up w pi.pixels_per_block * pi.bytes_per_block / pi.hsub)
          align) := by
  have hmempi : pi ∈ fmt.planes := hpi ▸ fmt.planes.get_mem p hp
  have hppb : 1 ≤ pi.pixels_per_block :=
    ((registry_fields_pos fmt hmem).2.2 pi hmempi).2.1
  rw [strideE_eval w align p hp pi hpi ha h1 h2 h3,
    div_round_up_eq_div hppb h2]

/-- Witness for C4 (amended) at NV12, plane 1, width 4, align 1. -/
theorem stride_amended_witness :
    strideE PixelFormats.NV12 4 1 1
      = .ok (_align_up (_div_round_up 4 1 * 2 / 2) 1) :=
  stride_amended PixelFormats.NV12 (by decide) 4 1 1 (by decide)
    ⟨2, 1, 2, 2⟩ (by decide) (by decide) (by decide) (by decide) (by decide)

/-- C7 (counterexample): increasing the alignment can DECREASE the
stride when the alignments are not divisibility-comparable: on the
registered R8 format with width 5, align 4 gives stride 8 but align 6
gives stride 6. -/
theorem stride_align_monotonicity_fails :
    strideE PixelFormats.R8 5 0 4 = .ok 8 ∧
      strideE PixelFormats.R8 5 0 6 = .ok 6 ∧
      (4 : ℕ) ≤ 6 ∧ ¬ ((8 : ℕ) ≤ 6) := by decide

/-- C7 (amended): for every registered format, any successful stride is
a multiple of its alignment; and increasing the alignment never
decreases the stride provided the smaller alignment divides the larger
one (e.g. along the usual power-of-two alignments). -/
theorem stride_alignment_props :
    (∀ fmt ∈ PixelFormats.all, ∀ w : ℕ, ∀ p : Int, ∀ a s : ℕ,
      strideE fmt w p a = .ok s → s % a = 0) ∧
    (∀ fmt ∈ PixelFormats.all, ∀ w : ℕ, ∀ p : Int, ∀ a1 a2 s1 s2 : ℕ,
      1 ≤ a1 → a1 ∣ a2 →
      strideE fmt w p a1 = .ok s1 → strideE fmt w p a2 = .ok s2 → s1 ≤ s2) := by
  constructor
  · intro fmt _ w p a s hok
    obtain ⟨-, pi, -, rfl⟩ := strideE_ok_shape hok
    exact align_up_mod _ _
  · intro fmt _ w p a1 a2 s1 s2 ha1 hdvd hok1 hok2
    obtain ⟨-, pi1, hpy1, rfl⟩ := strideE_ok_shape hok1
    obtain ⟨ha2, pi2, hpy2, rfl⟩ := strideE_ok_shape hok2
    rw [hpy1] at hpy2
    cases hpy2
    exact align_up_mono_dvd ha1 (by omega) hdvd

/-- Witness for C7 (amended) on R8 with width 5: align 4 divides align 8,
stride goes from 8 to 8; and 8 % 4 = 0. -/
theorem stride_alignment_props_witness :
    (8 : ℕ) % 4 = 0 ∧ (8 : ℕ) ≤ 8 :=
  ⟨stride_alignment_props.1 PixelFormats.R8 (by decide) 5 0 4 8 (by decide),
   stride_alignment_props.2 PixelFormats.R8 (by decide) 5 0 4 8 8 8
     (by decide) (by decide) (by decide) (by decide)⟩

/-! ### C2 : buffer size validation -/

/-- Reduction of `Except` bind on a success. -/
theorem ok_bind {ε α β : Type} (a : α) (f : α → Except ε β) :
    (Except.ok a : Except ε α) >>= f = f a := rfl

/-- Reduction of `Except` bind on an error. -/
theorem error_bind {ε α β : Type} (e : ε) (f : α → Except ε β) :
    (Except.error e : Except ε α) >>= f = .error e := rfl

/-- `throw` for `Except` is `Except.error`. -/
theorem throw_eq {ε α : Type} (e : ε) : (throw e : Except ε α) = .error e := rfl

/-- Evaluation of the validation loop when every listed plane passes:
the loop returns the accumulated view size. -/
theorem check_planes_ok (fmt : PixelFormat) (w h n : ℕ) (st ps : ℕ → ℕ)
    (l : List ℕ) (size : ℕ)
    (hsp : ∀ i ∈ l, strideE fmt w (i : Int) 1 = .ok (st i) ∧
      planesizeE fmt (st i) h (i : Int) = .ok (ps i))
    (hall : ∀ i ∈ l, ps i ≤ n) :
    check_planes fmt w h 0 n l size
      = .ok (size + (l.map fun i => st i * h).sum) := by
  induction l generalizing size with
  | nil => simp [check_planes]
  | cons i rest ih =>
    have hs1 := (hsp i (List.mem_cons_self i rest)).1
    have hs2 := (hsp i (List.mem_cons_self i rest)).2
    have hle : ¬ n < ps i := by
      have := hall i (List.mem_cons_self i rest)
      omega
    simp only [check_planes, gt_iff_lt, Nat.lt_irrefl, if_false, hs1, ok_bind,
      hs2, hle, ite_false]
    rw [ih (size + st i * h)
      (fun j hj => hsp j (List.mem_cons_of_mem _ hj))
      (fun j hj => hall j (List.mem_cons_of_mem _ hj))]
    simp [Nat.add_assoc]

/-- Evaluation of the validation loop when some listed plane's size
exceeds the buffer: the loop raises the too-small `ValueError`. -/
theorem check_planes_err (fmt : PixelFormat) (w h n : ℕ) (st ps : ℕ → ℕ)
    (l : List ℕ) (size : ℕ)
    (hsp : ∀ i ∈ l, strideE fmt w (i : Int) 1 = .ok (st i) ∧
      planesizeE fmt (st i) h (i : Int) = .ok (ps i))
    (hsome : ∃ i ∈ l, n < ps i) :
    check_planes fmt w h 0 n l size
      = .error (.valueError "Input array is too small") := by
  induction l generalizing size with
  | nil => simp at hsome
  | cons i rest ih =>
    have hs1 := (hsp i (List.mem_cons_self i rest)).1
    have hs2 := (hsp i (List.mem_cons_self i rest)).2
    simp only [check_planes, gt_iff_lt, Nat.lt_irrefl, if_false, hs1, ok_bind,
      hs2]
    by_cases hlt : n < ps i
    · simp [hlt, throw_eq, error_bind]
    · simp only [hlt, ite_false]
      apply ih (size + st i * h) (fun j hj => hsp j (List.mem_cons_of_mem _ hj))
      rcases hsome with ⟨j, hj, hjlt⟩
      rcases List.mem_cons.mp hj with rfl | hjr
      · exact absurd hjlt hlt
      · exact ⟨j, hjr, hjlt⟩

/-- C2 (counterexample): on the registered two-plane NV12 format at
width 2, height 2, a buffer of 4 bytes is STRICTLY SMALLER than the
frame size 6, yet the size validation of `to_bgr888` passes (it
compares the whole buffer against each plane's size individually, and
both 4-byte plane-0 and 2-byte plane-1 fit in 4 bytes). -/
theorem buffer_check_not_framesize :
    to_bgr888_check PixelFormats.NV12 2 2 0 4 = .ok 8 ∧
      framesizeE PixelFormats.NV12 2 2 1 = .ok 6 ∧ (4 : ℕ) < 6 := by decide

/-- C2 (amended): for every registered format, width and height meeting
the preconditions (expressed by the per-plane stride and planesize
computations succeeding), and `bytesperline = 0`: the conversion entry
point fails with the buffer-too-small `ValueError` whenever the buffer
is smaller than SOME single plane's size, and proceeds past the size
validation otherwise.  (For single-plane formats the threshold equals
the frame size; for multi-plane formats it is the largest plane, not the
sum.) -/
theorem buffer_check_per_plane (fmt : PixelFormat)
    (hmem : fmt ∈ PixelFormats.all) (w h n : ℕ) (st ps : ℕ → ℕ)
    (hsp : ∀ i < fmt.planes.length, strideE fmt w (i : Int) 1 = .ok (st i) ∧
      planesizeE fmt (st i) h (i : Int) = .ok (ps i)) :
    ((∀ i < fmt.planes.length, ps i ≤ n) →
      to_bgr888_check fmt w h 0 n
        = .ok (((List.range fmt.planes.length).map fun i => st i * h).sum)) ∧
    ((∃ i < fmt.planes.length, n < ps i) →
      to_bgr888_check fmt w h 0 n
        = .error (.valueError "Input array is too small")) := by
  constructor
  · intro hall
    rw [to_bgr888_check, if_neg (by simp)]
    rw [check_planes_ok fmt w h n st ps _ 0
      (fun i hi => hsp i (List.mem_range.mp hi))
      (fun i hi => hall i (List.mem_range.mp hi))]
    simp
  · intro hsome
    rw [to_bgr888_check, if_neg (by simp)]
    apply check_planes_err fmt w h n st ps _ 0
      (fun i hi => hsp i (List.mem_range.mp hi))
    rcases hsome with ⟨i, hi, hlt⟩
    exact ⟨i, List.mem_range.mpr hi, hlt⟩

/-- Witness for C2 (amended) on NV12 at width 2, height 2: a buffer of
6 bytes passes, a buffer of 3 bytes fails with the too-small error. -/
theorem buffer_check_per_plane_witness :
    to_bgr888_check PixelFormats.NV12 2 2 0 6 = .ok 8 ∧
      to_bgr888_check PixelFormats.NV12 2 2 0 3
        = .error (.valueError "Input array is too small") :=
  ⟨by
    have h := (buffer_check_per_plane PixelFormats.NV12 (by decide) 2 2 6
      (fun _ => 2) (fun i => if i = 0 then 4 else 2) (by decide)).1 (by decide)
    simpa using h,
   (buffer_check_per_plane PixelFormats.NV12 (by decide) 2 2 3
      (fun _ => 2) (fun i => if i = 0 then 4 else 2) (by decide)).2
     ⟨0, by decide, by decide⟩⟩

/-! ### C9 : negative plane indices -/

/-- Any `strideE` call whose plane index passes the range check never
returns the out-of-range `RuntimeError`. -/
theorem strideE_not_runtime {fmt : PixelFormat} {w : ℕ} {q : Int} {align : ℕ}
    (hq : ¬ ((fmt.planes.length : Int) ≤ q)) :
    strideE fmt w q align ≠ .error .runtimeError := by
  unfold strideE
  rw [if_neg hq]
  split
  · simp
  split
  · simp
  split
  · simp
  split
  · simp
  split
  · simp
  simp

/-- C9: the out-of-range check of `stride` only rejects plane indices
≥ the number of planes: for every registered format with n planes and
every negative plane index p with -n ≤ p < 0, `stride` does not raise
the out-of-range `RuntimeError` and computes exactly what it computes
for plane n + p (Python's indexing from the end), and `planesize`
behaves the same way on negative plane indices. -/
theorem negative_plane_index (fmt : PixelFormat)
    (hmem : fmt ∈ PixelFormats.all) (w align stride h : ℕ) (p : Int)
    (hlow : -(fmt.planes.length : Int) ≤ p) (hneg : p < 0) :
    strideE fmt w p align
        = strideE fmt w ((fmt.planes.length : Int) + p) align ∧
      strideE fmt w p align ≠ .error .runtimeError ∧
      planesizeE fmt stride h p
        = planesizeE fmt stride h ((fmt.planes.length : Int) + p) := by
  have hidx : pyIdx fmt.planes p
      = pyIdx fmt.planes ((fmt.planes.length : Int) + p) := by
    unfold pyIdx
    rw [if_neg (by omega), if_pos (by omega), if_pos (by omega)]
  have hc1 : ¬ ((fmt.planes.length : Int) ≤ p) := by omega
  have hc2 : ¬ ((fmt.planes.length : Int) ≤ (fmt.planes.length : Int) + p) := by
    omega
  refine ⟨?_, strideE_not_runtime hc1, ?_⟩
  · unfold strideE
    rw [if_neg hc1, if_neg hc2, hidx]
  · unfold planesizeE
    rw [hidx]

/-- Witness for C9 on NV12 (2 planes) at plane -1 = plane 1. -/
theorem negative_plane_index_witness :
    strideE PixelFormats.NV12 2 (-1) 1 = strideE PixelFormats.NV12 2 1 1 ∧
      strideE PixelFormats.NV12 2 (-1) 1 ≠ .error .runtimeError ∧
      planesizeE PixelFormats.NV12 2 2 (-1) = planesizeE PixelFormats.NV12 2 2 1 := by
  have h := negative_plane_index PixelFormats.NV12 (by decide) 2 1 2 2 (-1)
    (by decide) (by decide)
  exact h

/-! ### C1 : the YCbCr → BGR transform -/

/-- C1 (counterexample): the conversion does not compute the clip
transform for EVERY options map: an options map selecting the bt709
encoding (which the spec lists as recognized) makes the matrix lookup
fail with a Python `KeyError` — only bt601 is present in
`YCBCR_VALUES`. -/
theorem ycbcr_unknown_encoding_fails :
    ycbcr_to_bgr888_px 0 0 0 (some [("encoding", "bt709")])
      = .error (.keyError "bt709") := rfl

/-- C1 (amended): for every YCbCr sample and every options map whose
resolved encoding is bt601 (the only registered encoding; any other
encoding raises a KeyError), the conversion computes
`clip((ycbcr + offset) · matrix, 0, 255)` truncated to an 8-bit unsigned
value per channel, with the matrix selected by the resolved range and
offsets (-16, -128, -128) for limited range and (0, -128, -128) for
full range; output byte 0 is matrix column 0, byte 1 column 1, byte 2
column 2 (the B, G, R bytes in the program's BGR888 convention). -/
theorem ycbcr_transform (y u v : ℕ) (options : Option OptionsDict)
    (henc : resolved_encoding options = "bt601") :
    (resolved_range options = "limited" →
      ycbcr_to_bgr888_px y u v options = .ok
        (clip_u8 (((y : ℚ) + (-16)) * 1.1643854428931106
            + ((u : ℚ) + (-128)) * 0.0 + ((v : ℚ) + (-128)) * 1.596032654306859),
         clip_u8 (((y : ℚ) + (-16)) * 1.1643854428931106
            + ((u : ℚ) + (-128)) * (-0.3917753871976806)
            + ((v : ℚ) + (-128)) * (-0.8129854276340887)),
         clip_u8 (((y : ℚ) + (-16)) * 1.1643854428931106
            + ((u : ℚ) + (-128)) * 2.01722743572137
            + ((v : ℚ) + (-128)) * 0.0))) ∧
    (resolved_range options = "full" →
      ycbcr_to_bgr888_px y u v options = .ok
        (clip_u8 (((y : ℚ) + 0) * 1.0
            + ((u : ℚ) + (-128)) * 0.0 + ((v : ℚ) + (-128)) * 1.4019989318684671),
         clip_u8 (((y : ℚ) + 0) * 1.0
            + ((u : ℚ) + (-128)) * (-0.3441367208361944)
            + ((v : ℚ) + (-128)) * (-0.714152742809186)),
         clip_u8 (((y : ℚ) + 0) * 1.0
            + ((u : ℚ) + (-128)) * 1.7720149538414587
            + ((v : ℚ) + (-128)) * 0.0))) := by
  constructor
  · intro hr
    have hm : _get_conversion_matrix options = .ok
        ⟨-16, -128, -128,
         ⟨1.1643854428931106, 1.1643854428931106, 1.1643854428931106,
          0.0, -0.3917753871976806, 2.01722743572137,
          1.596032654306859, -0.8129854276340887, 0.0⟩⟩ := by
      unfold _get_conversion_matrix
      rw [henc, hr]
      rfl
    unfold ycbcr_to_bgr888_px
    rw [hm, ok_bind]
    rfl
  · intro hr
    have hm : _get_conversion_matrix options = .ok
        ⟨0, -128, -128,
         ⟨1.0, 1.0, 1.0,
          0.0, -0.3441367208361944, 1.7720149538414587,
          1.4019989318684671, -0.714152742809186, 0.0⟩⟩ := by
      unfold _get_conversion_matrix
      rw [henc, hr]
      rfl
    unfold ycbcr_to_bgr888_px
    rw [hm, ok_bind]
    rfl

/-- Witness for C1 (amended): with no options (defaults bt601/limited),
black level input (16, 128, 128) maps to (0, 0, 0). -/
theorem ycbcr_transform_witness :
    ycbcr_to_bgr888_px 16 128 128 none = .ok (0, 0, 0) := by
  have h := (ycbcr_transform 16 128 128 none rfl).1 rfl
  rw [h]
  norm_num [clip_u8]

/-! ### C3 : grey (Y8) conversion range default -/

/-- C3 (counterexample): with no options map the Y8 conversion does NOT
apply the limited-range rescale: luma 16 stays 16 in all channels,
whereas the claimed default-limited rescale would produce 0. -/
theorem y8_default_not_limited :
    y8_to_bgr888_px 16 none = (16, 16, 16) ∧
      clip_u8 (((16 : ℚ) - 16) * 255 / 219) = 0 ∧ (16 : ℕ) ≠ 0 := by
  refine ⟨rfl, ?_, by decide⟩
  norm_num [clip_u8]

/-- C3 (amended): for the Y8 conversion the range defaults to FULL: with
no options map, or with no 'range' key present, the luma value is passed
through unscaled into all three output channels; only an explicit
range=limited rescales `(y-16)*255/219` clipped to [0,255] before
replication, and an explicit range=full passes through unscaled. -/
theorem y8_range_default_full (y : ℕ) :
    (y8_to_bgr888_px y none = (y, y, y)) ∧
    (∀ o : OptionsDict, o.lookup "range" = none →
      y8_to_bgr888_px y (some o) = (y, y, y)) ∧
    (∀ o : OptionsDict, o.lookup "range" = some "limited" →
      y8_to_bgr888_px y (some o)
        = (clip_u8 (((y : ℚ) - 16) * 255 / 219),
           clip_u8 (((y : ℚ) - 16) * 255 / 219),
           clip_u8 (((y : ℚ) - 16) * 255 / 219))) ∧
    (∀ o : OptionsDict, o.lookup "range" = some "full" →
      y8_to_bgr888_px y (some o) = (y, y, y)) := by
  refine ⟨rfl, ?_, ?_, ?_⟩
  · intro o ho
    have hr : (if dict_truthy (some o) then dict_get o "range" "full"
        else "full") = "full" := by
      cases hdt : dict_truthy (some o)
      · simp
      · simp [dict_get, ho]
    simp only [y8_to_bgr888_px, Option.getD_some]
    rw [hr, if_neg (by decide)]
  · intro o ho
    have hr : (if dict_truthy (some o) then dict_get o "range" "full"
        else "full") = "limited" := by
      have hne : o ≠ [] := by
        intro hcontra
        rw [hcontra] at ho
        simp [List.lookup] at ho
      have hdt : dict_truthy (some o) = true := by
        simp [dict_truthy, List.isEmpty_iff, hne]
      simp [hdt, dict_get, ho]
    simp only [y8_to_bgr888_px, Option.getD_some]
    rw [hr, if_pos rfl]
  · intro o ho
    have hr : (if dict_truthy (some o) then dict_get o "range" "full"
        else "full") = "full" := by
      cases hdt : dict_truthy (some o)
      · simp
      · simp [dict_get, ho]
    simp only [y8_to_bgr888_px, Option.getD_some]
    rw [hr, if_neg (by decide)]

/-- Witness for C3 (amended): explicit limited range rescales 100 to
floor((100-16)*255/219) = 97; explicit full range passes 100 through. -/
theorem y8_range_default_full_witness :
    y8_to_bgr888_px 100 (some [("range", "limited")]) = (97, 97, 97) ∧
      y8_to_bgr888_px 100 (some [("range", "full")]) = (100, 100, 100) := by
  constructor
  · have h := (y8_range_default_full 100).2.2.1 [("range", "limited")] rfl
    rw [h]
    norm_num [clip_u8]
    decide
  · exact (y8_range_default_full 100).2.2.2 [("range", "full")] rfl

/-! ### C5 : 10-bit pack/unpack round trip -/

/-- The two low-order bits of any value are below 4. -/
theorem and3_lt (s : ℕ) : s &&& 3 < 4 :=
  Nat.lt_succ_of_le Nat.and_le_right

set_option maxRecDepth 100000 in
/-- Extracting each 2-bit field back out of the packing byte (all 256
combinations of the four 2-bit fields, checked exhaustively). -/
theorem pack_byte_extract :
    ∀ l0 < 4, ∀ l1 < 4, ∀ l2 < 4, ∀ l3 < 4,
      ((((l0 <<< 6) ||| (l1 <<< 4) ||| (l2 <<< 2) ||| l3) <<< 2) >>> 8) &&& 3 = l0 ∧
      ((((l0 <<< 6) ||| (l1 <<< 4) ||| (l2 <<< 2) ||| l3) <<< 2) >>> 6) &&& 3 = l1 ∧
      ((((l0 <<< 6) ||| (l1 <<< 4) ||| (l2 <<< 2) ||| l3) <<< 2) >>> 4) &&& 3 = l2 ∧
      ((((l0 <<< 6) ||| (l1 <<< 4) ||| (l2 <<< 2) ||| l3) <<< 2) >>> 2) &&& 3 = l3 := by
  decide

set_option maxRecDepth 100000 in
/-- Recombining the high 8 bits with the low 2 bits of a 10-bit sample
(checked exhaustively for all 1024 sample values). -/
theorem sample_recombine : ∀ s < 1024, ((s >>> 2) <<< 2) ||| (s &&& 3) = s := by
  decide

/-- C5: for every row of 4 sample values in 0..1023, packing them into 5
bytes per the 10-bit layout (byte i = sample i >> 2 for i in 0..3, the
5th byte holding sample i's 2 low bits at bit offset (3-i)*2 from the
top) and then running the 10-bit unpacker reproduces the original 4
values exactly, with the packing byte removed. -/
theorem unpack_10bit_roundtrip (s0 s1 s2 s3 : ℕ)
    (h0 : s0 < 1024) (h1 : s1 < 1024) (h2 : s2 < 1024) (h3 : s3 < 1024) :
    _unpack_10bit (pack_10bit_group s0 s1 s2 s3) = [s0, s1, s2, s3] := by
  have he := pack_byte_extract (s0 &&& 3) (and3_lt s0) (s1 &&& 3) (and3_lt s1)
    (s2 &&& 3) (and3_lt s2) (s3 &&& 3) (and3_lt s3)
  unfold pack_10bit_group _unpack_10bit
  rw [he.1, he.2.1, he.2.2.1, he.2.2.2]
  rw [sample_recombine s0 h0, sample_recombine s1 h1, sample_recombine s2 h2,
    sample_recombine s3 h3]
  rfl

/-- Witness for C5 at samples (1023, 0, 512, 3). -/
theorem unpack_10bit_roundtrip_witness :
    _unpack_10bit (pack_10bit_group 1023 0 512 3) = [1023, 0, 512, 3] :=
  unpack_10bit_roundtrip 1023 0 512 3 (by decide) (by decide) (by decide)
    (by decide)

/-! ### C6 : demosaic coverage positivity -/

/-- A padded coverage cell whose real coordinates carry a sample of the
channel contributes 1. -/
theorem bayer_padded_one {h w y x c : ℕ}
    (hin : 1 ≤ y ∧ y ≤ h ∧ 1 ≤ x ∧ x ≤ w)
    (hcov : bayer_coverage (y - 1) (x - 1) c = 1) :
    bayer_padded h w y x c = 1 := by
  unfold bayer_padded
  rw [if_pos hin, hcov]

/-- Red coverage sits at odd rows and even columns. -/
theorem coverage_red {a b : ℕ} (ha : a % 2 = 1) (hb : b % 2 = 0) :
    bayer_coverage a b 0 = 1 := by
  simp [bayer_coverage, ha, hb]

/-- Green coverage sits where row and column parities agree. -/
theorem coverage_green {a b : ℕ} (hab : a % 2 = b % 2) :
    bayer_coverage a b 1 = 1 := by
  rcases Nat.mod_two_eq_zero_or_one a with ha | ha <;>
    rw [ha] at hab <;> simp [bayer_coverage, ha, hab.symm]

/-- Blue coverage sits at even rows and odd columns. -/
theorem coverage_blue {a b : ℕ} (ha : a % 2 = 0) (hb : b % 2 = 1) :
    bayer_coverage a b 2 = 1 := by
  simp [bayer_coverage, ha, hb]

/-- C6: for every Bayer pattern, every mosaic of even dimensions, every
interior output pixel (not on the image border) and each output channel,
the 3×3 coverage sum used as the divisor of the windowed-average
demosaic is non-zero, so `value_sum // coverage_sum` never divides by
zero at interior pixels.  (The coverage plane of the source is
independent of the Bayer pattern.) -/
theorem coverage_sum_pos (pat : BayerPattern) (h w i j c : ℕ)
    (hh : 2 ∣ h) (hw : 2 ∣ w) (hc : c < 3)
    (hi1 : 1 ≤ i) (hi2 : i + 1 < h) (hj1 : 1 ≤ j) (hj2 : j + 1 < w) :
    0 < coverage_sum_3x3 h w i j c := by
  interval_cases c
  · rcases Nat.mod_two_eq_zero_or_one i with hpi | hpi <;>
      rcases Nat.mod_two_eq_zero_or_one j with hpj | hpj
    · have h1 : bayer_padded h w (i + 2) (j + 1) 0 = 1 :=
        bayer_padded_one (by omega)
          (coverage_red (a := i + 2 - 1) (by omega) (by omega))
      unfold coverage_sum_3x3
      omega
    · have h1 : bayer_padded h w (i + 2) (j + 2) 0 = 1 :=
        bayer_padded_one (by omega)
          (coverage_red (a := i + 2 - 1) (by omega) (by omega))
      unfold coverage_sum_3x3
      omega
    · have h1 : bayer_padded h w (i + 1) (j + 1) 0 = 1 :=
        bayer_padded_one (by omega)
          (coverage_red (a := i + 1 - 1) (by omega) (by omega))
      unfold coverage_sum_3x3
      omega
    · have h1 : bayer_padded h w (i + 1) (j + 2) 0 = 1 :=
        bayer_padded_one (by omega)
          (coverage_red (a := i + 1 - 1) (by omega) (by omega))
      unfold coverage_sum_3x3
      omega
  · rcases Nat.mod_two_eq_zero_or_one (i % 2 + j % 2) with hpar | hpar
    · have h1 : bayer_padded h w (i + 1) (j + 1) 1 = 1 :=
        bayer_padded_one (by omega)
          (coverage_green (a := i + 1 - 1) (by omega))
      unfold coverage_sum_3x3
      omega
    · have h1 : bayer_padded h w (i + 1) (j + 2) 1 = 1 :=
        bayer_padded_one (by omega)
          (coverage_green (a := i + 1 - 1) (by omega))
      unfold coverage_sum_3x3
      omega
  · rcases Nat.mod_two_eq_zero_or_one i with hpi | hpi <;>
      rcases Nat.mod_two_eq_zero_or_one j with hpj | hpj
    · have h1 : bayer_padded h w (i + 1) (j + 2) 2 = 1 :=
        bayer_padded_one (by omega)
          (coverage_blue (a := i + 1 - 1) (by omega) (by omega))
      unfold coverage_sum_3x3
      omega
    · have h1 : bayer_padded h w (i + 1) (j + 1) 2 = 1 :=
        bayer_padded_one (by omega)
          (coverage_blue (a := i + 1 - 1) (by omega) (by omega))
      unfold coverage_sum_3x3
      omega
    · have h1 : bayer_padded h w (i + 2) (j + 2) 2 = 1 :=
        bayer_padded_one (by omega)
          (coverage_blue (a := i + 2 - 1) (by omega) (by omega))
      unfold coverage_sum_3x3
      omega
    · have h1 : bayer_padded h w (i + 2) (j + 1) 2 = 1 :=
        bayer_padded_one (by omega)
          (coverage_blue (a := i + 2 - 1) (by omega) (by omega))
      unfold coverage_sum_3x3
      omega

/-- Witness for C6 at a 4×4 mosaic, interior pixel (1, 1), all three
channels (with an arbitrary RGGB-style pattern record). -/
theorem coverage_sum_pos_witness :
    0 < coverage_sum_3x3 4 4 1 1 0 ∧ 0 < coverage_sum_3x3 4 4 1 1 1 ∧
      0 < coverage_sum_3x3 4 4 1 1 2 :=
  ⟨coverage_sum_pos ⟨(0, 0), (1, 0), (0, 1), (1, 1)⟩ 4 4 1 1 0 (by decide)
      (by decide) (by decide) (by decide) (by decide) (by decide) (by decide),
   coverage_sum_pos ⟨(0, 0), (1, 0), (0, 1), (1, 1)⟩ 4 4 1 1 1 (by decide)
      (by decide) (by decide) (by decide) (by decide) (by decide) (by decide),
   coverage_sum_pos ⟨(0, 0), (1, 0), (0, 1), (1, 1)⟩ 4 4 1 1 2 (by decide)
      (by decide) (by decide) (by decide) (by decide) (by decide) (by decide)⟩

end Pixutils
